import Mathlib

/-!
# Verification of pleme-config-manager

A shallow embedding of the two components of `@pleme/config-manager`:

* the synchronous `Config` class (`src/config.ts`): stateless reads of
  `window[configKey]`, modelled as pure functions of the current window value;
* the asynchronous `ConfigLoader` class (`src/configLoader.ts`): a per-instance
  cache plus a coalesced polling wait, modelled as an explicit state machine.
  `loadConfigCall` embeds the synchronous entry logic of `loadConfig` (cache
  hit / attach to in-flight promise / start a new one), and `checkFire` embeds
  one firing of the `checkConfig` timer callback (slot check, timeout check,
  reschedule).  Promise identity is modelled by a per-instance cycle counter:
  each freshly created loading promise receives a fresh cycle id, waiters
  record the id of the promise they await, and a `CheckResult` records which
  promise the fired callback settles.
-/

namespace PlemeConfig

/-- `ConfigRecord = Record<string, string | undefined>` (src/types.ts).
A key mapped to `undefined` is observationally identical to an absent key
(both read back as `undefined`), so the record is a finite list of
string-valued bindings and `getVal` returns `none` for absent keys. -/
abbrev ConfigRecord := List (String × String)

/-- JavaScript property read `record[key]`: `none` models `undefined`. -/
def getVal (env : ConfigRecord) (k : String) : Option String :=
  (env.find? (fun p => p.1 == k)).map (fun p => p.2)

/-- The ambient window: `none` models `typeof window === 'undefined'`;
`some none` models a window whose slot `window[configKey]` is absent or
otherwise falsy; `some (some env)` models a truthy slot holding `env`
(a JavaScript object is always truthy when present). -/
abbrev Window := Option (Option ConfigRecord)

/-- Error kinds thrown by the synchronous `Config` class. -/
inductive ErrKind where
  | sourceUnavailable
  | missingRequiredKey
deriving DecidableEq, Repr

/-- `Config.getEnv` (src/config.ts lines 25-41): throws when
`typeof window === 'undefined'` and when `!windowConfig`; otherwise returns
the slot value. -/
def getEnv (w : Window) : Except ErrKind ConfigRecord :=
  match w with
  | none => .error .sourceUnavailable
  | some none => .error .sourceUnavailable
  | some (some env) => .ok env

/-- `Config.getRequired` (src/config.ts lines 47-59): reads the slot via
`getEnv`, then throws when `!value || value === ''`, i.e. when the value is
`undefined` or the empty string. -/
def getRequired (w : Window) (k : String) : Except ErrKind String :=
  match getEnv w with
  | .error e => .error e
  | .ok env =>
    match getVal env k with
    | none => .error .missingRequiredKey
    | some v => if v = "" then .error .missingRequiredKey else .ok v

/-- `Config.getOptional` (src/config.ts lines 64-67):
`(env[key] as string | undefined) || undefined` — an empty string is falsy in
JavaScript, so it collapses to `undefined`. -/
def getOptional (w : Window) (k : String) : Except ErrKind (Option String) :=
  match getEnv w with
  | .error e => .error e
  | .ok env =>
    .ok (match getVal env k with
      | none => none
      | some v => if v = "" then none else some v)

/-- `Config.getBoolean` (src/config.ts lines 72-75):
`value === 'true' || defaultValue`. -/
def getBoolean (w : Window) (k : String) (defaultValue : Bool) :
    Except ErrKind Bool :=
  match getOptional w k with
  | .error e => .error e
  | .ok v => .ok ((v == some "true") || defaultValue)

/-- `Config.getAll` (src/config.ts lines 80-82). -/
def getAll (w : Window) : Except ErrKind ConfigRecord :=
  getEnv w

/-- `Config.isAvailable` (src/config.ts lines 87-89):
`typeof window !== 'undefined' && !!window[configKey]`.  Total: both
conjuncts are guarded boolean tests, no code path throws. -/
def isAvailable (w : Window) : Bool :=
  match w with
  | some (some _) => true
  | _ => false

/-! ## The asynchronous `ConfigLoader` -/

/-- `ConfigLoaderOptions` (src/types.ts): all fields optional. -/
structure ConfigLoaderOptions where
  maxWaitMs : Option Nat := none
  pollIntervalMs : Option Nat := none
  configKey : Option String := none
deriving DecidableEq, Repr

/-- The readonly fields the `ConfigLoader` constructor fixes. -/
structure LoaderParams where
  maxWaitMs : Nat
  pollIntervalMs : Nat
  configKey : String
deriving DecidableEq, Repr

/-- The `ConfigLoader` constructor (src/configLoader.ts lines 17-21):
`options.maxWaitMs ?? 10000`, `options.pollIntervalMs ?? 50`,
`options.configKey ?? 'ENV'`. -/
def mkParams (o : ConfigLoaderOptions) : LoaderParams :=
  { maxWaitMs := o.maxWaitMs.getD 10000
    pollIntervalMs := o.pollIntervalMs.getD 50
    configKey := o.configKey.getD "ENV" }

/-- The mutable instance state of a `ConfigLoader`:
`config : T | null` and `loadingPromise : Promise<T> | null`.
`loading` holds the cycle id of the in-flight promise (promise identity);
`nextCycle` is bookkeeping that hands out fresh ids to new promises. -/
structure LoaderState where
  config : Option ConfigRecord
  loading : Option Nat
  nextCycle : Nat
deriving DecidableEq, Repr

/-- The state of a freshly constructed loader: both fields `null`. -/
def initialState : LoaderState := ⟨none, none, 0⟩

/-- What one caller of `loadConfig` observes on entry. -/
inductive CallOutcome where
  | cached (c : ConfigRecord)
  | attached (cid : Nat)
  | started (cid : Nat)
deriving DecidableEq, Repr

/-- The cycle a pending caller awaits (`none` when answered from cache). -/
def cycleOf : CallOutcome → Option Nat
  | .cached _ => none
  | .attached cid => some cid
  | .started cid => some cid

/-- Whether a call outcome started a new poll cycle. -/
def isStarted : CallOutcome → Bool
  | .started _ => true
  | _ => false

/-- The synchronous entry logic of `ConfigLoader.loadConfig`
(src/configLoader.ts lines 30-42): return the cache if populated, else the
existing loading promise if one is in flight, else create a new loading
promise (which receives a fresh cycle id) and store it. -/
def loadConfigCall (s : LoaderState) : LoaderState × CallOutcome :=
  match s.config with
  | some c => (s, .cached c)
  | none =>
    match s.loading with
    | some cid => (s, .attached cid)
    | none =>
      ({ s with loading := some s.nextCycle, nextCycle := s.nextCycle + 1 },
        .started s.nextCycle)

/-- A burst of `n` `get`/`getAll` calls processed back to back (each such
call enters `loadConfig` first); returns the final state and the outcome
observed by each caller in order. -/
def processCalls : Nat → LoaderState → LoaderState × List CallOutcome
  | 0, s => (s, [])
  | n + 1, s =>
    let p := loadConfigCall s
    let q := processCalls n p.1
    (q.1, p.2 :: q.2)

/-- How one firing of `checkConfig` settles (or reschedules) the promise it
closes over.  `reject` carries the data baked into the thrown error message:
the configured `maxWaitMs` and the slot key. -/
inductive CheckResult where
  | resolve (cid : Nat) (c : ConfigRecord)
  | reject (cid : Nat) (maxWaitMs : Nat) (configKey : String)
  | reschedule (cid : Nat) (nextElapsed : Nat)
deriving DecidableEq, Repr

/-- One firing of the `checkConfig` callback (src/configLoader.ts lines
45-75) belonging to the promise with id `cid`.  `slot` is the value of
`window[configKey]` at this instant and `elapsed` is `Date.now() - startTime`.
In source order: if the slot is truthy, set `this.config`, null out
`this.loadingPromise` and resolve; else if `elapsed >= maxWaitMs`, null out
`this.loadingPromise` and reject; else `setTimeout(checkConfig,
pollIntervalMs)`.  Note the callback writes the instance fields
unconditionally — it does not first check that `this.loadingPromise` is still
its own promise. -/
def checkFire (slot : Option ConfigRecord) (elapsed maxWaitMs pollIntervalMs : Nat)
    (configKey : String) (cid : Nat) (s : LoaderState) :
    LoaderState × CheckResult :=
  match slot with
  | some c =>
    ({ s with config := some c, loading := none }, .resolve cid c)
  | none =>
    if maxWaitMs ≤ elapsed then
      ({ s with loading := none }, .reject cid maxWaitMs configKey)
    else
      (s, .reschedule cid (elapsed + pollIntervalMs))

/-- The value delivered to a waiter by a settled check: a cache hit already
holds its value; an attached or started caller awaits the promise `cid`, so
it receives `c` exactly when the check resolved that same promise. -/
def outcomeValue (r : CheckResult) : CallOutcome → Option ConfigRecord
  | .cached c => some c
  | .attached cid =>
    match r with
    | .resolve cid2 c => if cid2 = cid then some c else none
    | _ => none
  | .started cid =>
    match r with
    | .resolve cid2 c => if cid2 = cid then some c else none
    | _ => none

/-- The rejection delivered to a waiter: an attached or started caller
awaiting promise `cid` observes the timeout error (with its `maxWaitMs` and
`configKey` payload) exactly when the check rejected that same promise. -/
def outcomeError (r : CheckResult) : CallOutcome → Option (Nat × String)
  | .cached _ => none
  | .attached cid =>
    match r with
    | .reject cid2 m key => if cid2 = cid then some (m, key) else none
    | _ => none
  | .started cid =>
    match r with
    | .reject cid2 m key => if cid2 = cid then some (m, key) else none
    | _ => none

/-- Errors surfaced by `ConfigLoader.get` / `getAll`. -/
inductive LoaderErr where
  | missingRequiredKey
  | configLoadTimeout (maxWaitMs : Nat) (configKey : String)
deriving DecidableEq, Repr

/-- `GetConfigOptions` (src/types.ts): both fields optional. -/
structure GetConfigOptions where
  required : Option Bool := none
  defaultValue : Option String := none
deriving DecidableEq, Repr

/-- The value-checking logic of `ConfigLoader.get` run on a loaded record
(src/configLoader.ts lines 89-101): throw when
`options?.required && (value === undefined || value === '')`; otherwise
return `value !== undefined ? value : options?.defaultValue`. -/
def getStep (env : ConfigRecord) (k : String) (o : GetConfigOptions) :
    Except LoaderErr (Option String) :=
  let value := getVal env k
  if o.required.getD false && (value == none || value == some "") then
    .error .missingRequiredKey
  else
    .ok (match value with
      | some v => some v
      | none => o.defaultValue)

/-- What a single `ConfigLoader.get` call produces synchronously: an
immediate result when answered from cache, otherwise a pending computation
awaiting the cycle recorded in the `CallOutcome`. -/
inductive GetOutcome where
  | immediate (r : Except LoaderErr (Option String))
  | awaiting (o : CallOutcome) (k : String) (opts : GetConfigOptions)
deriving Repr

/-- `ConfigLoader.get` (src/configLoader.ts lines 84-101): `await
this.loadConfig()` then apply the value check.  When the cache is populated
the await completes synchronously with the cached record. -/
def getCall (s : LoaderState) (k : String) (o : GetConfigOptions) :
    LoaderState × GetOutcome :=
  let p := loadConfigCall s
  match p.2 with
  | .cached c => (p.1, .immediate (getStep c k o))
  | out => (p.1, .awaiting out k o)

/-- `ConfigLoader.isLoaded` (src/configLoader.ts lines 113-115):
`this.config !== null`. -/
def isLoaded (s : LoaderState) : Bool :=
  s.config.isSome

/-- `ConfigLoader.reload` (src/configLoader.ts lines 120-123): set both
`this.config` and `this.loadingPromise` to `null`. -/
def reload (s : LoaderState) : LoaderState :=
  { s with config := none, loading := none }

/-! ## Theorems about the synchronous `Config` -/

/-- C1, counterexample.  The claim says `getBoolean` returns `true` if and
only if the resolved value is exactly the literal string true, for every
`defaultValue`.  But with `defaultValue = true` and stored value the literal
string false, the source expression `value === 'true' || defaultValue`
evaluates to `true` although the resolved value is not the literal true. -/
theorem getBoolean_claim_counterexample :
    getBoolean (some (some [("FLAG", "false")])) "FLAG" true = .ok true ∧
    getVal [("FLAG", "false")] "FLAG" = some "false" := by
  exact ⟨rfl, rfl⟩

/-- C1, amended.  On a loaded record, `getBoolean key d` returns the literal
comparison result when the value is exactly the string true, and `d` in every
other case — so the iff form of the original claim only holds when `d` is
false: with `d = true` the result is `true` regardless of the stored value. -/
theorem getBoolean_spec (env : ConfigRecord) (k : String) (d : Bool) :
    getBoolean (some (some env)) k d =
      .ok (if getVal env k = some "true" then true else d) := by
  unfold getBoolean getOptional getEnv
  cases h : getVal env k with
  | none => simp [h]
  | some v =>
    by_cases hv : v = ""
    · subst hv
      simp [h]
    · by_cases ht : v = "true"
      · subst ht
        simp [h]
      · simp [h, hv, ht]

/-- C7.  `Config.getRequired` fails with the source-unavailable error exactly
when there is no ambient window or the slot is absent/falsy; fails with the
missing-required-key error exactly when the slot resolves to a record whose
value for the key is absent or empty; and returns `v` exactly when the slot
resolves and stores the non-empty value `v`.  The class keeps no mutable
state, so each call is this pure function of the window at call time: the
characterization quantifies over every window value `w`, which is what
"re-read on every call, no caching" amounts to in the embedding. -/
theorem getRequired_spec (w : Window) (k : String) :
    (getRequired w k = .error .sourceUnavailable ↔ w = none ∨ w = some none) ∧
    (getRequired w k = .error .missingRequiredKey ↔
      ∃ env, w = some (some env) ∧
        (getVal env k = none ∨ getVal env k = some "")) ∧
    (∀ v, getRequired w k = .ok v ↔
      ∃ env, w = some (some env) ∧ getVal env k = some v ∧ v ≠ "") := by
  rcases w with _ | _ | env
  · refine ⟨by simp [getRequired, getEnv], by simp [getRequired, getEnv], ?_⟩
    intro v
    simp [getRequired, getEnv]
  · refine ⟨by simp [getRequired, getEnv], by simp [getRequired, getEnv], ?_⟩
    intro v
    simp [getRequired, getEnv]
  · unfold getRequired getEnv
    cases h : getVal env k with
    | none => simp [h]
    | some u =>
      by_cases hu : u = ""
      · subst hu
        simp [h]
      · simp only [h, if_neg hu]
        refine ⟨by simp, by simp [h, hu], ?_⟩
        intro v
        constructor
        · intro hv
          cases hv
          exact ⟨env, rfl, h, hu⟩
        · rintro ⟨env2, heq, hval, hne⟩
          cases heq
          rw [h] at hval
          cases hval
          rfl

/-- C7 witness: on a window whose slot stores a non-empty value for the key,
`getRequired` returns exactly that value. -/
theorem getRequired_spec_witness :
    getRequired (some (some [("API_URL", "x")])) "API_URL" = .ok "x" :=
  ((getRequired_spec (some (some [("API_URL", "x")])) "API_URL").2.2 "x").mpr
    ⟨[("API_URL", "x")], rfl, rfl, by decide⟩

/-- C8.  `Config.isAvailable` is a total boolean function of the window —
in the source both conjuncts of
`typeof window !== 'undefined' && !!window[configKey]` are guarded tests
that cannot throw — and it returns `true` exactly when an ambient window
exists and the slot holds a truthy (present) record. -/
theorem isAvailable_spec (w : Window) :
    isAvailable w = true ↔ ∃ c, w = some (some c) := by
  rcases w with _ | _ | c <;> simp [isAvailable]

/-- C8 witness: available on a present slot, and (by the reverse direction)
the iff is exercised at a concrete window. -/
theorem isAvailable_spec_witness :
    isAvailable (some (some [("A", "1")])) = true :=
  (isAvailable_spec (some (some [("A", "1")]))).mpr ⟨[("A", "1")], rfl⟩

/-! ## Theorems about the asynchronous `ConfigLoader` -/

/-- C2, counterexample.  For a key present but mapped to the empty string,
with `required` not set and a `defaultValue` supplied, the claim says the
default is returned; the source test `value !== undefined` is true for the
empty string, so `get` returns the empty string itself, not the default. -/
theorem get_claim_counterexample :
    getStep [("A", "")] "A" ⟨none, some "x"⟩ = .ok (some "") ∧
    (some "" : Option String) ≠ some "x" := by
  exact ⟨rfl, by decide⟩

/-- C2, amended.  After a successful load, `get` returns the value when it
is present and non-empty; when the value is absent (`undefined`) and
`required` is not set it returns the `defaultValue` (which encodes "absent"
when none was given); when the value is absent or empty and `required` is
set it fails with the missing-required-key error; but a present empty-string
value with `required` not set is returned as the empty string itself — the
`defaultValue` only replaces an absent value, never an empty one. -/
theorem get_value_resolution (env : ConfigRecord) (k : String)
    (o : GetConfigOptions) :
    (∀ v, getVal env k = some v → v ≠ "" → getStep env k o = .ok (some v)) ∧
    (getVal env k = none → o.required.getD false = false →
      getStep env k o = .ok o.defaultValue) ∧
    ((getVal env k = none ∨ getVal env k = some "") →
      o.required.getD false = true →
      getStep env k o = .error .missingRequiredKey) ∧
    (getVal env k = some "" → o.required.getD false = false →
      getStep env k o = .ok (some "")) := by
  refine ⟨?_, ?_, ?_, ?_⟩
  · intro v hv hne
    unfold getStep
    simp [hv, hne]
  · intro h hreq
    unfold getStep
    simp [h, hreq]
  · rintro (h | h) hreq <;> unfold getStep <;> simp [h, hreq]
  · intro h hreq
    unfold getStep
    simp [h, hreq]

/-- C2 witness: a present non-empty value is returned as-is even when a
default was supplied. -/
theorem get_value_resolution_witness :
    getStep [("A", "v1")] "A" ⟨none, some "d"⟩ = .ok (some "v1") :=
  (get_value_resolution [("A", "v1")] "A" ⟨none, some "d"⟩).1 "v1" rfl
    (by decide)

/-- Helper: while a cycle `cid` is in flight and the cache is empty, every
`loadConfig` entry attaches to that same cycle and leaves the state
untouched. -/
theorem processCalls_attached (s : LoaderState) (cid : Nat)
    (hc : s.config = none) (hl : s.loading = some cid) :
    ∀ n, processCalls n s = (s, List.replicate n (.attached cid)) := by
  intro n
  induction n with
  | zero => simp [processCalls]
  | succ m ih =>
    simp [processCalls, loadConfigCall, hc, hl, ih, List.replicate_succ]

/-- C3.  Once the cache holds `c`, any number of further `get`/`getAll`
entries answer every caller with that same cached record and leave the
instance state untouched — `loadConfigCall` on a cached state returns in its
first branch and never consults the slot (the slot is only read inside
`checkFire`, i.e. inside a promise created while the cache was empty) — and
only `reload` clears the cache (and the in-flight reference). -/
theorem cached_reads_stable (s : LoaderState) (c : ConfigRecord)
    (h : s.config = some c) :
    (∀ n, processCalls n s = (s, List.replicate n (.cached c))) ∧
    (∀ k o, getCall s k o = (s, .immediate (getStep c k o))) ∧
    (reload s).config = none ∧ (reload s).loading = none := by
  refine ⟨?_, ?_, rfl, rfl⟩
  · intro n
    induction n with
    | zero => simp [processCalls]
    | succ m ih =>
      simp [processCalls, loadConfigCall, h, ih, List.replicate_succ]
  · intro k o
    simp [getCall, loadConfigCall, h]

/-- C3 witness: three reads on a loaded instance all see the cached record
and the state is unchanged. -/
theorem cached_reads_stable_witness :
    processCalls 3 ⟨some [("A", "x")], none, 5⟩ =
      (⟨some [("A", "x")], none, 5⟩,
        List.replicate 3 (.cached [("A", "x")])) :=
  (cached_reads_stable ⟨some [("A", "x")], none, 5⟩ [("A", "x")] rfl).1 3

/-- C4.  From an idle instance (no cache, nothing in flight), a burst of
`n + 1` concurrent `get`/`getAll` calls causes exactly one poll cycle: the
first call creates the loading promise (cycle id `s.nextCycle`) and each of
the remaining `n` calls attaches to that same pending promise, never
starting a second poll loop; and once a check of that single cycle observes
the slot holding `c`, it resolves that promise with `c`, so every one of the
`n + 1` callers receives the same loaded value `c`. -/
theorem concurrent_calls_coalesce (s : LoaderState) (hc : s.config = none)
    (hl : s.loading = none) (n : Nat) (c : ConfigRecord)
    (e mw iv : Nat) (key : String) :
    (processCalls (n + 1) s).2 =
      .started s.nextCycle :: List.replicate n (.attached s.nextCycle) ∧
    ((processCalls (n + 1) s).2.filter isStarted).length = 1 ∧
    (checkFire (some c) e mw iv key s.nextCycle
      (processCalls (n + 1) s).1).2 = .resolve s.nextCycle c ∧
    ∀ o ∈ (processCalls (n + 1) s).2,
      outcomeValue
        (checkFire (some c) e mw iv key s.nextCycle
          (processCalls (n + 1) s).1).2 o = some c := by
  have hstep : loadConfigCall s =
      ({ s with loading := some s.nextCycle, nextCycle := s.nextCycle + 1 },
        .started s.nextCycle) := by
    simp [loadConfigCall, hc, hl]
  have hrest : processCalls n
      { s with loading := some s.nextCycle, nextCycle := s.nextCycle + 1 } =
      ({ s with loading := some s.nextCycle, nextCycle := s.nextCycle + 1 },
        List.replicate n (.attached s.nextCycle)) :=
    processCalls_attached
      { s with loading := some s.nextCycle, nextCycle := s.nextCycle + 1 }
      s.nextCycle hc rfl n
  have houts : processCalls (n + 1) s =
      ({ s with loading := some s.nextCycle, nextCycle := s.nextCycle + 1 },
        .started s.nextCycle ::
          List.replicate n (.attached s.nextCycle)) := by
    simp [processCalls, hstep, hrest]
  refine ⟨by simp [houts], ?_, by simp [checkFire], ?_⟩
  · simp [houts, isStarted, List.filter_replicate]
  · intro o ho
    simp [checkFire]
    rw [houts] at ho
    simp only [List.mem_cons, List.mem_replicate] at ho
    rcases ho with rfl | ⟨-, rfl⟩
    · simp [outcomeValue]
    · simp [outcomeValue]

/-- C4 witness: three calls on a fresh loader — one started cycle (id 0),
two attachments to it. -/
theorem concurrent_calls_coalesce_witness :
    (processCalls 3 initialState).2 =
      .started 0 :: List.replicate 2 (.attached 0) :=
  (concurrent_calls_coalesce initialState rfl rfl 2 [("A", "1")]
    0 10000 50 "ENV").1

/-- C5.  When a check of the in-flight cycle fires with the slot still
absent and elapsed time at least `maxWaitMs`, it rejects the cycle's promise
with the timeout error carrying the configured `maxWaitMs` and the slot key
— so every caller coalesced onto that cycle (its starter and every attached
waiter) observes exactly that error — the in-flight reference is cleared
while the cache stays absent (the instance is back in the idle state), and a
subsequent call after `reload()` starts a fresh poll cycle. -/
theorem timeout_rejects_waiters (s : LoaderState) (cid e mw iv : Nat)
    (key : String) (hc : s.config = none) (hl : s.loading = some cid)
    (he : mw ≤ e) :
    (checkFire none e mw iv key cid s).2 = .reject cid mw key ∧
    (checkFire none e mw iv key cid s).1.config = none ∧
    (checkFire none e mw iv key cid s).1.loading = none ∧
    (∀ o : CallOutcome, cycleOf o = some cid →
      outcomeError (checkFire none e mw iv key cid s).2 o =
        some (mw, key)) ∧
    (loadConfigCall (reload (checkFire none e mw iv key cid s).1)).2 =
      .started (reload (checkFire none e mw iv key cid s).1).nextCycle := by
  have hfire : checkFire none e mw iv key cid s =
      ({ s with loading := none }, .reject cid mw key) := by
    simp [checkFire, he]
  refine ⟨by simp [hfire], by simp [hfire, hc], by simp [hfire], ?_, ?_⟩
  · intro o ho
    cases o with
    | cached c2 => simp [cycleOf] at ho
    | attached cid2 =>
      simp only [cycleOf, Option.some.injEq] at ho
      subst ho
      simp [hfire, outcomeError]
    | started cid2 =>
      simp only [cycleOf, Option.some.injEq] at ho
      subst ho
      simp [hfire, outcomeError]
  · simp [hfire, reload, loadConfigCall]

/-- C5 witness: a fresh loader with cycle 0 in flight, slot absent,
elapsed exactly at the deadline — the check rejects with the configured
timeout and key. -/
theorem timeout_rejects_waiters_witness :
    (checkFire none 10000 10000 50 "ENV" 0 ⟨none, some 0, 1⟩).2 =
      .reject 0 10000 "ENV" :=
  (timeout_rejects_waiters ⟨none, some 0, 1⟩ 0 10000 10000 50 "ENV"
    rfl rfl (Nat.le_refl 10000)).1

/-- C6.  One firing of `checkConfig` examines the slot before the deadline
test: a truthy slot resolves the cycle with the observed value under no
condition on elapsed time (a value present when elapsed time already equals
`maxWaitMs` still resolves); a falsy slot with elapsed time at least
`maxWaitMs` rejects; and a falsy slot before the deadline leaves the state
untouched and schedules the next check one poll interval later. -/
theorem check_examines_slot_first (slot : Option ConfigRecord)
    (e mw iv : Nat) (key : String) (cid : Nat) (s : LoaderState) :
    (∀ c, slot = some c →
      checkFire slot e mw iv key cid s =
        ({ s with config := some c, loading := none }, .resolve cid c)) ∧
    (slot = none → mw ≤ e →
      checkFire slot e mw iv key cid s =
        ({ s with loading := none }, .reject cid mw key)) ∧
    (slot = none → e < mw →
      checkFire slot e mw iv key cid s = (s, .reschedule cid (e + iv))) := by
  refine ⟨?_, ?_, ?_⟩
  · rintro c rfl
    rfl
  · rintro rfl hle
    simp [checkFire, hle]
  · rintro rfl hlt
    simp only [checkFire]
    rw [if_neg (by omega)]

/-- C6 witness: the slot appearing exactly at the deadline still resolves
rather than timing out. -/
theorem check_examines_slot_first_witness :
    checkFire (some [("A", "1")]) 10000 10000 50 "ENV" 0 initialState =
      (⟨some [("A", "1")], none, 0⟩, .resolve 0 [("A", "1")]) :=
  (check_examines_slot_first (some [("A", "1")]) 10000 10000 50 "ENV" 0
    initialState).1 [("A", "1")] rfl

/-- C9, counterexample.  Scenario: cycle 0 was in flight, `reload()` reset
the instance, a new call began cycle 1, so the state is
`⟨none, some 1, 2⟩`.  The orphaned check of cycle 0 then fires and observes
the slot holding a record.  Contrary to the claim it is not a no-op with
respect to the post-reset state: the `checkConfig` body unconditionally
executes `this.config = windowConfig; this.loadingPromise = null`, so it
repopulates the cache with the observed record and clears the in-flight
reference that now belongs to cycle 1. -/
theorem orphan_check_claim_counterexample :
    (checkFire (some [("A", "x")]) 100 10000 50 "ENV" 0
      ⟨none, some 1, 2⟩).1 ≠ ⟨none, some 1, 2⟩ ∧
    (checkFire (some [("A", "x")]) 100 10000 50 "ENV" 0
      ⟨none, some 1, 2⟩).1 = ⟨some [("A", "x")], none, 2⟩ := by
  exact ⟨by decide, rfl⟩

/-- C9, amended.  An orphaned check that fires after `reload()` and observes
a truthy slot settles only its own old promise — a waiter coalesced onto the
new cycle receives nothing from that resolution — but it is not a no-op on
the instance state: it writes the observed record into the cache and nulls
out the in-flight reference even when that reference belongs to a load cycle
begun after the reset. -/
theorem orphan_check_effect (s : LoaderState) (cidOld cidNew : Nat)
    (c : ConfigRecord) (e mw iv : Nat) (key : String)
    (hl : s.loading = some cidNew) (hne : cidOld ≠ cidNew) :
    checkFire (some c) e mw iv key cidOld s =
      ({ s with config := some c, loading := none }, .resolve cidOld c) ∧
    (∀ o : CallOutcome, cycleOf o = some cidNew →
      outcomeValue (.resolve cidOld c) o = none) := by
  refine ⟨rfl, ?_⟩
  intro o ho
  cases o with
  | cached c2 => simp [cycleOf] at ho
  | attached cid2 =>
    simp only [cycleOf, Option.some.injEq] at ho
    subst ho
    simp [outcomeValue, hne]
  | started cid2 =>
    simp only [cycleOf, Option.some.injEq] at ho
    subst ho
    simp [outcomeValue, hne]

/-- C9 witness: concrete orphaned firing of cycle 0 while cycle 1 is in
flight — the old promise resolves, and a waiter of cycle 1 gets nothing
from it. -/
theorem orphan_check_effect_witness :
    checkFire (some [("A", "x")]) 100 10000 50 "ENV" 0 ⟨none, some 1, 2⟩ =
      (⟨some [("A", "x")], none, 2⟩, .resolve 0 [("A", "x")]) :=
  (orphan_check_effect ⟨none, some 1, 2⟩ 0 1 [("A", "x")] 100 10000 50
    "ENV" rfl (by decide)).1

/-- C10.  On a loaded instance, a `get` with `required` set whose key is
absent or empty fails with the missing-required-key error yet leaves the
state exactly as it was: the cache stays populated, `isLoaded` still
returns true, and every subsequent `get` (any key, any options) is again
answered immediately from the cached record — the returned state is the
original one, so no new poll cycle is started. -/
theorem required_failure_keeps_cache (s : LoaderState) (env : ConfigRecord)
    (k : String) (o : GetConfigOptions) (h : s.config = some env)
    (hreq : o.required.getD false = true)
    (hv : getVal env k = none ∨ getVal env k = some "") :
    getCall s k o = (s, .immediate (.error .missingRequiredKey)) ∧
    isLoaded s = true ∧
    (∀ k2 o2, getCall s k2 o2 = (s, .immediate (getStep env k2 o2))) := by
  refine ⟨?_, by simp [isLoaded, h], ?_⟩
  · have hstep : getStep env k o = .error .missingRequiredKey := by
      unfold getStep
      rcases hv with hv | hv <;> simp [hv, hreq]
    simp [getCall, loadConfigCall, h, hstep]
  · intro k2 o2
    simp [getCall, loadConfigCall, h]

/-- C10 witness: a loaded instance whose record maps the key to the empty
string — the required read fails but the state is untouched. -/
theorem required_failure_keeps_cache_witness :
    getCall ⟨some [("A", "")], none, 0⟩ "A" ⟨some true, none⟩ =
      (⟨some [("A", "")], none, 0⟩,
        .immediate (.error .missingRequiredKey)) :=
  (required_failure_keeps_cache ⟨some [("A", "")], none, 0⟩ [("A", "")]
    "A" ⟨some true, none⟩ rfl rfl (Or.inr rfl)).1

end PlemeConfig
